import Mathlib

/-!
Verification of the JTAG debug stack (libjtag): a shallow embedding of the
TAP state machine, the `change_state` sequencer, the IDCODE auto-scan, the
35-bit DPACC/APACC scan layer, and the MEM-AP banked-data register access,
translated from the Rust sources under `src/libjtag/src/`.
-/

namespace Libjtag

/-- The 16 states of the IEEE 1149.1 TAP controller
(`jtag_state_machine.rs`, `enum JtagState`). -/
inductive JtagState where
  | Reset
  | RunIdle
  | SelectDRScan
  | CaptureDR
  | ShiftDR
  | Exit1DR
  | PauseDR
  | Exit2DR
  | UpdateDR
  | SelectIRScan
  | CaptureIR
  | ShiftIR
  | Exit1IR
  | PauseIR
  | Exit2IR
  | UpdateIR
  deriving DecidableEq, Repr, Fintype

/-- `JtagStateMachine::transition` (`jtag_state_machine.rs`): the TAP
transition function, driven by one TMS bit per cycle.  The Rust function
returns `Option<State>` but every arm of its match is `Some`. -/
def transition (state : JtagState) (input : Bool) : Option JtagState :=
  match state, input with
  -- Reset
  | .Reset, true => some .Reset
  | .Reset, false => some .RunIdle
  -- RunIdle
  | .RunIdle, true => some .SelectDRScan
  | .RunIdle, false => some .RunIdle
  -- SelectDRScan
  | .SelectDRScan, true => some .SelectIRScan
  | .SelectDRScan, false => some .CaptureDR
  -- CaptureDR
  | .CaptureDR, true => some .Exit1DR
  | .CaptureDR, false => some .ShiftDR
  -- ShiftDR
  | .ShiftDR, true => some .Exit1DR
  | .ShiftDR, false => some .ShiftDR
  -- Exit1DR
  | .Exit1DR, true => some .UpdateDR
  | .Exit1DR, false => some .PauseDR
  -- PauseDR
  | .PauseDR, true => some .Exit2DR
  | .PauseDR, false => some .PauseDR
  -- Exit2DR
  | .Exit2DR, true => some .UpdateDR
  | .Exit2DR, false => some .ShiftDR
  -- UpdateDR
  | .UpdateDR, true => some .SelectDRScan
  | .UpdateDR, false => some .RunIdle
  -- SelectIRScan
  | .SelectIRScan, true => some .Reset
  | .SelectIRScan, false => some .CaptureIR
  -- CaptureIR
  | .CaptureIR, true => some .Exit1IR
  | .CaptureIR, false => some .ShiftIR
  -- ShiftIR
  | .ShiftIR, true => some .Exit1IR
  | .ShiftIR, false => some .ShiftIR
  -- Exit1IR
  | .Exit1IR, true => some .UpdateIR
  | .Exit1IR, false => some .PauseIR
  -- PauseIR
  | .PauseIR, true => some .Exit2IR
  | .PauseIR, false => some .PauseIR
  -- Exit2IR
  | .Exit2IR, true => some .UpdateIR
  | .Exit2IR, false => some .ShiftIR
  -- UpdateIR
  | .UpdateIR, true => some .SelectIRScan
  | .UpdateIR, false => some .RunIdle

/-- `StateMachine::consume` followed by `.unwrap()`, as used throughout
`jtag.rs`.  `transition` never returns `None`, so the default is never
taken. -/
def consume (state : JtagState) (input : Bool) : JtagState :=
  (transition state input).getD state

/-- `Jtag::write_tms` (`jtag.rs`): the interface emits the TMS bits and the
tracked state machine consumes exactly the same bits. -/
def write_tms (state : JtagState) (tms : List Bool) : JtagState :=
  tms.foldl consume state

/-- `Jtag::change_state` (`jtag.rs` lines 64-101), modelled as the list of
TMS bits written to the adapter; `none` models the
`panic!("not supported from .. to ..")` arm.  The guard mirrors the early
return `if (*from == to) && to != JS::Reset`.  The Rust method recurses
once in its `(Reset, _)` arm (`change_state(RunIdle); change_state(to)`),
so the recursion depth is at most 2; the fuel counter only serves Lean's
structural termination and is never exhausted with fuel ≥ 2. -/
def change_state_fuel : Nat → JtagState → JtagState → Option (List Bool)
  | 0, _, _ => none
  | fuel + 1, s, t =>
    if s = t ∧ t ≠ JtagState.Reset then
      some []
    else
      match s, t with
      | _, .Reset => some [true, true, true, true, true]
      | .Reset, .RunIdle => some [false]
      | .Reset, _ => (change_state_fuel fuel .RunIdle t).map (fun p => false :: p)
      | .RunIdle, .RunIdle => some [false]
      | .SelectDRScan, .RunIdle | .SelectIRScan, .RunIdle =>
          some [false, true, true, false]
      | .CaptureDR, .RunIdle | .CaptureIR, .RunIdle => some [true, true, false]
      | .ShiftDR, .RunIdle | .ShiftIR, .RunIdle => some [true, true, false]
      | .Exit1DR, .RunIdle | .Exit1IR, .RunIdle => some [true, false]
      | .PauseDR, .RunIdle | .PauseIR, .RunIdle => some [true, true, false]
      | .Exit2DR, .RunIdle | .Exit2IR, .RunIdle => some [true, false]
      | .UpdateDR, .RunIdle | .UpdateIR, .RunIdle => some [false]
      | .RunIdle, .CaptureDR => some [true, false]
      | .RunIdle, .ShiftDR => some [true, false, false]
      | .Exit1DR, .UpdateDR => some [true]
      | .RunIdle, .CaptureIR => some [true, true, false]
      | .RunIdle, .ShiftIR => some [true, true, false, false]
      | .Exit1IR, .UpdateIR => some [true]
      | _, _ => none

/-- `Jtag::change_state` at its actual recursion depth. -/
def change_state (s t : JtagState) : Option (List Bool) :=
  change_state_fuel 2 s t

/-- `impl Drop for TAP` (`jtag.rs` lines 233-238): on drop, the handle
locks the shared JTAG core and runs `change_state(Reset)`; the resulting
tracked state is obtained by consuming the emitted TMS bits. -/
def tap_drop (s : JtagState) : Option JtagState :=
  (change_state s JtagState.Reset).map (write_tms s)

-- The `JtagBit` bitflags (`jtag.rs`, `bitflags! JtagBit : u32`).
namespace JtagBit

def NONE : Nat := 0
def TMS : Nat := 1 <<< 1
def TCK : Nat := 1 <<< 2
def TDI : Nat := 1 <<< 3
def TDO : Nat := 1 <<< 4
def TRST : Nat := 1 <<< 5
def SRST : Nat := 1 <<< 6

end JtagBit

/-- Default `JtagInterface::write_data` (`interface.rs` lines 16-25): build
one `JtagBit` entry per TDI bit and, when `exit` is set, OR `TMS` into the
last entry.  `data.last_mut().unwrap()` panics on an empty vector, modelled
by `none`.  Returns the pin entries passed to `raw_write`. -/
def write_data (tdi : List Bool) (exit : Bool) : Option (List Nat) :=
  let data := tdi.map fun x => if x then JtagBit.TDI else JtagBit.NONE
  if exit then
    match data.getLast? with
    | none => none
    | some last => some (data.dropLast ++ [last ||| JtagBit.TMS])
  else
    some data

/-- Default `JtagInterface::read_data` (`interface.rs` lines 26-40): builds
the identical pin vector (with the same `last_mut().unwrap()` panic on an
empty slice) before `raw_read` overwrites the `TDO` flag of each entry with
the adapter's capture.  Returns the driven pin entries, the code-determined
part. -/
def read_data (tditdo : List Bool) (exit : Bool) : Option (List Nat) :=
  let data := tditdo.map fun x => if x then JtagBit.TDI else JtagBit.NONE
  if exit then
    match data.getLast? with
    | none => none
    | some last => some (data.dropLast ++ [last ||| JtagBit.TMS])
  else
    some data

/-- `Jtag::raw_write_data` (`jtag.rs`): delegate to the interface, then
consume one TMS=1 transition when `exit` forced an Exit1. -/
def raw_write_data (s : JtagState) (tdi : List Bool) (exit : Bool) :
    Option JtagState :=
  (write_data tdi exit).map fun _ => if exit then consume s true else s

/-- `Jtag::raw_read_data` (`jtag.rs`): same as `raw_write_data` but through
`read_data`. -/
def raw_read_data (s : JtagState) (tditdo : List Bool) (exit : Bool) :
    Option JtagState :=
  (read_data tditdo exit).map fun _ => if exit then consume s true else s

/-- `Jtag::write_ir` (`jtag.rs` lines 103-121), tracked-state semantics:
move to RunIdle unless in Reset/RunIdle/ShiftIR, move to ShiftIR, shift the
(optionally reversed) bits with `raw_write_data`, return to RunIdle. -/
def write_ir (s : JtagState) (ir_bitstream : List Bool)
    (exit reverse : Bool) : Option JtagState := do
  let s1 ← match s with
    | .Reset | .RunIdle | .ShiftIR => some s
    | _ => (change_state s .RunIdle).map (write_tms s)
  let s2 ← (change_state s1 .ShiftIR).map (write_tms s1)
  let stream := if reverse then ir_bitstream.reverse else ir_bitstream
  let s3 ← raw_write_data s2 stream exit
  (change_state s3 .RunIdle).map (write_tms s3)

/-- `Jtag::read_write_dr` (`jtag.rs` lines 123-146), tracked-state
semantics: symmetric with `write_ir` but targeting ShiftDR and shifting
full-duplex through `raw_read_data`. -/
def read_write_dr (s : JtagState) (data : List Bool)
    (exit reverse_input reverse_output : Bool) : Option JtagState := do
  let s1 ← match s with
    | .Reset | .RunIdle | .ShiftDR => some s
    | _ => (change_state s .RunIdle).map (write_tms s)
  let s2 ← (change_state s1 .ShiftDR).map (write_tms s1)
  let stream := if reverse_input then data.reverse else data
  let s3 ← raw_read_data s2 stream exit
  (change_state s3 .RunIdle).map (write_tms s3)

/-- The MSB-first bit fold `iter().fold(0, |x, y| (x << 1) | y as uN)` used
in `Jtag::scan` and `TAP::acc`.  Over at most 32 bits the accumulator stays
below 2^32, so the `u32` arithmetic never wraps and `Nat` is exact. -/
def bitsToNatMsb (l : List Bool) : Nat :=
  l.foldl (fun x y => (x <<< 1) ||| (if y then 1 else 0)) 0

/-- The LSB-first serialisation loop
`for i in 0..n { out[i] = (tmp & 1) != 0; tmp >>= 1 }` used by
`Jtag::scan` (dummy id), `TAP::write_instruction` and `TAP::acc`. -/
def u32ToBitsLsb : Nat → Nat → List Bool
  | _, 0 => []
  | tmp, n + 1 => ((tmp &&& 1) != 0) :: u32ToBitsLsb (tmp >>> 1) n

/-- `const TAP_DEVICE_MAX: usize = 2` (`jtag.rs`). -/
def TAP_DEVICE_MAX : Nat := 2

/-- Rust slice indexing `data[i..i + 32]`: panics (`none`) when `i + 32`
exceeds the length. -/
def slice32 (data : List Bool) (i : Nat) : Option (List Bool) :=
  if i + 32 ≤ data.length then some ((data.drop i).take 32) else none

/-- Rust array index-assignment `idcodes[counter] = Some(v)`: panics
(`none`) when `counter` is out of bounds. -/
def idcodes_set (idcodes : List (Option Nat)) (counter v : Nat) :
    Option (List (Option Nat)) :=
  if counter < idcodes.length then some (idcodes.set counter (some v)) else none

/-- The decode loop of `Jtag::scan` (`jtag.rs` lines 166-198) over the
64-bit TDO capture: a leading 1 bit takes `data[i..i+32]` LSB-first as an
IDCODE (terminating on `0x000000ff`), a leading 0 bit records a BYPASS
device as idcode 0.  The loop advances `i` by at least 1 per iteration, so
a fuel of `data.length + 1` is never exhausted; `none` models the two
panics (slice out of range, `idcodes` index out of bounds). -/
def scan_loop : Nat → List Bool → Nat → Nat → List (Option Nat) →
    Option (List (Option Nat))
  | 0, _, _, _, _ => none
  | fuel + 1, data, i, counter, idcodes =>
    if i < data.length then
      if data.getD i false then
        match slice32 data i with
        | none => none
        | some s =>
          let idcode := bitsToNatMsb s.reverse
          if idcode = 0x000000ff then some idcodes
          else
            match idcodes_set idcodes counter idcode with
            | none => none
            | some idcodes2 => scan_loop fuel data (i + 32) (counter + 1) idcodes2
      else
        match idcodes_set idcodes counter 0 with
        | none => none
        | some idcodes2 => scan_loop fuel data (i + 1) (counter + 1) idcodes2
    else
      some idcodes

/-- `Jtag::scan` (`jtag.rs` lines 148-199), decode part: the TDO capture
`tdo` is the content of the 64-entry buffer after the Reset → ShiftDR
excursion shifted `0x000000ff` (then zeros) through the chain.  Starts
with `idcodes = [None; TAP_DEVICE_MAX]`. -/
def scan (tdo : List Bool) : Option (List (Option Nat)) :=
  scan_loop (tdo.length + 1) tdo 0 0 (List.replicate TAP_DEVICE_MAX none)

/-- `enum DapAck` (`dap.rs` lines 78-84). -/
inductive DapAck where
  | Wait
  | OkFault
  | InvalidAck
  deriving DecidableEq, Repr

/-- `impl From<u8> for DapAck` (`dap.rs` lines 86-93). -/
def DapAck.from_u8 (ack : Nat) : DapAck :=
  if ack = 0x01 then .Wait
  else if ack = 0x02 then .OkFault
  else .InvalidAck

/-- The 35-entry request buffer built by `TAP::acc` (`dap.rs` lines
163-172): bit 0 `RnW`, bit 1 `(a & 1) != 0`, bit 2 `(a & 0b10) != 0`,
bits 3..34 the 32 data bits LSB-first. -/
def acc_request (data a : Nat) (RnW : Bool) : List Bool :=
  RnW :: ((a &&& 1) != 0) :: ((a &&& 2) != 0) :: u32ToBitsLsb data 32

/-- `TAP::acc` (`dap.rs` lines 162-188).  The request buffer is shifted
through ShiftDR with `exit = true` and no reversal; `tdo` is the 35-bit
capture that replaces the buffer in `read_write_dr`.  Returns
(driven request, ack, result): `ack` folds the first three captured bits
with `(x << 1) | y` (first TDO bit ends up as the MSB), `result` reverses
the capture and folds its first 32 entries the same way. -/
def acc (data a : Nat) (RnW : Bool) (tdo : List Bool) :
    List Bool × Nat × Nat :=
  (acc_request data a RnW, bitsToNatMsb (tdo.take 3),
    bitsToNatMsb (tdo.reverse.take 32))

/-- `enum MemapAddress` (`dap.rs` lines 108-122). -/
inductive MemapAddress where
  | CSW
  | TARlo
  | TARhi
  | DRW
  | BD0
  | BD1
  | BD2
  | BD3
  | MBT
  | BASEhi
  | CFG
  | BASElo
  | IDR
  deriving DecidableEq, Repr

/-- The discriminant values of `enum MemapAddress` (`address as u8`). -/
def MemapAddress.to_u8 : MemapAddress → Nat
  | .CSW => 0x00
  | .TARlo => 0x04
  | .TARhi => 0x08
  | .DRW => 0x0C
  | .BD0 => 0x10
  | .BD1 => 0x14
  | .BD2 => 0x18
  | .BD3 => 0x1C
  | .MBT => 0x20
  | .BASEhi => 0xF0
  | .CFG => 0xF4
  | .BASElo => 0xF8
  | .IDR => 0xFC

/-- One `MemoryAccessPort::memap(address, data, read)` call issued to the
DAP (`dap.rs`); the event alphabet for the MEM-AP traces below.  Each such
call expands to SELECT write + APACC + RDBUFF on the wire, but the
banked-data claims are stated at this level. -/
structure MemapOp where
  address : MemapAddress
  data : Nat
  read : Bool
  deriving DecidableEq, Repr

/-- Whether a `memap` call targets one of the banked-data registers. -/
def MemapOp.isBD (op : MemapOp) : Bool :=
  op.address == .BD0 || op.address == .BD1 || op.address == .BD2
    || op.address == .BD3

/-- `MemoryAccessPort::memap_tar_u64` (`dap.rs` lines 260-273): access
TARhi with the high word, then TARlo with the low word. -/
def memap_tar_u64 (address : Nat) (read : Bool) : List MemapOp :=
  let address_low := address &&& 0xffffffff
  let address_high := (address >>> 32) &&& 0xffffffff
  [⟨.TARhi, address_high, read⟩, ⟨.TARlo, address_low, read⟩]

/-- `memap_tar_u64_read` (`dap.rs`). -/
def memap_tar_u64_read : List MemapOp :=
  memap_tar_u64 0 true

/-- `memap_tar_u64_write` (`dap.rs` lines 279-284): the write followed by
a verify read of TAR. -/
def memap_tar_u64_write (address : Nat) : List MemapOp :=
  memap_tar_u64 address false ++ memap_tar_u64_read

/-- `AArch64Register::register_u32` (`arm64.rs` lines 192-211) as the
list of `memap` calls issued under the DAP lock: the TAR write with
`baseaddr + bd_base` (a u64 addition, taken mod 2^64) and then one
banked-data access chosen by `bd_index`; `none` models the
`panic!("unexpected value")` arm.  The u32 the method returns is the
response of the BD access, supplied by the DAP. -/
def register_u32 (baseaddr offset data : Nat) (read : Bool) :
    Option (List MemapOp) :=
  let bd_base := offset &&& 0xFFFFFFFFFFFFFFF0
  let bd_index := (offset % 0x10) / 4
  let tar := (baseaddr + bd_base) % 2 ^ 64
  let bdOp : Option MemapOp :=
    match bd_index with
    | 0 => some ⟨.BD0, data, read⟩
    | 1 => some ⟨.BD1, data, read⟩
    | 2 => some ⟨.BD2, data, read⟩
    | 3 => some ⟨.BD3, data, read⟩
    | _ => none
  bdOp.map fun op => memap_tar_u64_write tar ++ [op]

/-- `AArch64Register::register_u64` (`arm64.rs` lines 219-252): the body
begins with `todo!()`, so every call panics before issuing any access. -/
def register_u64 (baseaddr offset data : Nat) (read : Bool) :
    Option (List MemapOp × Nat) :=
  none

/-- The code of `register_u64` after the `todo!()` marker (dead code in
the source, `arm64.rs` lines 222-251): TAR write with
`baseaddr + bd_base`, one BD access at `bd_index` with the low data word,
one at `bd_index + 1` with the high data word, result
`(result_high << 32) | result_low` from the two BD responses
`result_low`, `result_high`.  `none` models the two `panic!` arms (for
`bd_index + 1 = 4` the second match hits its default). -/
def register_u64_after_todo (baseaddr offset data : Nat) (read : Bool)
    (result_low result_high : Nat) : Option (List MemapOp × Nat) :=
  let bd_base := offset &&& 0xFFFFFFFFFFFFFFF0
  let bd_index := (offset % 0x10) / 4
  let data_low := data &&& 0xffffffff
  let data_high := (data >>> 32) &&& 0xffffffff
  let tar := (baseaddr + bd_base) % 2 ^ 64
  let opLow : Option MemapOp :=
    match bd_index with
    | 0 => some ⟨.BD0, data_low, read⟩
    | 1 => some ⟨.BD1, data_low, read⟩
    | 2 => some ⟨.BD2, data_low, read⟩
    | 3 => some ⟨.BD3, data_low, read⟩
    | _ => none
  let opHigh : Option MemapOp :=
    match bd_index + 1 with
    | 0 => some ⟨.BD0, data_high, read⟩
    | 1 => some ⟨.BD1, data_high, read⟩
    | 2 => some ⟨.BD2, data_high, read⟩
    | 3 => some ⟨.BD3, data_high, read⟩
    | _ => none
  match opLow, opHigh with
  | some lo, some hi =>
      some (memap_tar_u64_write tar ++ [lo, hi],
        (result_high <<< 32) ||| result_low)
  | _, _ => none

end Libjtag

namespace Libjtag

theorem transition_isSome (s : JtagState) (b : Bool) : (transition s b).isSome := by
  cases s <;> cases b <;> rfl

theorem change_state_sound :
    ∀ s t : JtagState, ∀ p ∈ change_state s t, write_tms s p = t := by
  decide

/-- C1: for every pair of TAP states for which `change_state` has a route,
driving the emitted TMS bits through the tracked state machine from the
source state ends in the requested state; `change_state(Reset)` always
emits five TMS=1 cycles, and five consecutive TMS=1 cycles drive every
state to `Reset`. -/
theorem change_state_correct :
    (∀ s t : JtagState, ∀ p : List Bool, change_state s t = some p →
        write_tms s p = t)
    ∧ (∀ s : JtagState,
        change_state s JtagState.Reset = some [true, true, true, true, true]
        ∧ write_tms s [true, true, true, true, true] = JtagState.Reset) :=
  ⟨fun s t p h => change_state_sound s t p (by rw [h]; exact rfl), by decide⟩

/-- Witness for `change_state_correct`: the RunIdle → ShiftDR route. -/
theorem change_state_correct_witness :
    change_state JtagState.RunIdle JtagState.ShiftDR = some [true, false, false]
    ∧ write_tms JtagState.RunIdle [true, false, false] = JtagState.ShiftDR :=
  ⟨by decide, change_state_correct.1 JtagState.RunIdle JtagState.ShiftDR
    [true, false, false] (by decide)⟩

/-- C8 counterexample: `change_state(RunIdle)` with the machine already in
`RunIdle` hits the early return (`from == to && to != Reset`) and emits no
TMS cycle at all, not the single TMS=0 cycle of the path table. -/
theorem change_state_runidle_self_counterexample :
    change_state JtagState.RunIdle JtagState.RunIdle = some []
    ∧ change_state JtagState.RunIdle JtagState.RunIdle ≠ some [false] := by
  decide

/-- C8 (amended): `change_state(RunIdle)` from `RunIdle` is an early-return
no-op — it emits no TMS cycles and the tracked state stays `RunIdle`; the
`(RunIdle, RunIdle) => write_tms([false])` match arm is unreachable. -/
theorem change_state_runidle_self_noop :
    change_state JtagState.RunIdle JtagState.RunIdle = some []
    ∧ write_tms JtagState.RunIdle [] = JtagState.RunIdle := by
  decide

/-- C9: dropping a TAP handle runs `change_state(Reset)`, which succeeds
from every tracked state and leaves the machine in `Reset`. -/
theorem tap_drop_resets :
    ∀ s : JtagState, tap_drop s = some JtagState.Reset := by
  decide

/-- C10: the default `write_data`/`read_data` panic on an empty bit slice
with `exit == true` (they unwrap `last_mut()` of an empty vector), and
consequently `Jtag::write_ir` and `Jtag::read_write_dr` panic when invoked
with an empty buffer and `exit = true`, from every tracked TAP state. -/
theorem empty_shift_panics :
    write_data [] true = none
    ∧ read_data [] true = none
    ∧ (∀ (s : JtagState) (rev : Bool), write_ir s [] true rev = none)
    ∧ (∀ (s : JtagState) (ri ro : Bool), read_write_dr s [] true ri ro = none) := by
  decide

/-- C3: evaluation at the failing input.  A 64-bit TDO capture of all
zeros describes more than `TAP_DEVICE_MAX` (= 2) bypass devices; the loop
has no bound check against `TAP_DEVICE_MAX`, so the third write
`idcodes[2]` indexes out of bounds and panics (`none`) instead of stopping
silently after two devices.  With exactly two bypass devices followed by
the `0x000000ff` terminator the loop does stop cleanly. -/
theorem scan_more_than_two_devices_panics :
    scan (List.replicate 64 false) = none
    ∧ scan ([false, false] ++ u32ToBitsLsb 0x000000ff 32
        ++ List.replicate 30 false) = some [some 0, some 0] := by
  decide

/-- C5: evaluation at the spec's own scenario (one bypass + one device).
The 64-bit capture holds one 0 bit, the 32 bits of `0x2ba01477`, and the
first 31 bits of the `0x000000ff` terminator.  After recording
`idcodes[0] = Some(0)` and `idcodes[1] = Some(0x2ba01477)` the loop sees
the leading 1 of the truncated terminator at i = 33 and panics slicing
`data[33..65]` out of the 64-bit buffer (`none`), instead of returning the
recorded idcodes. -/
theorem scan_bypass_plus_device_panics :
    scan ([false] ++ u32ToBitsLsb 0x2ba01477 32
        ++ (u32ToBitsLsb 0x000000ff 32).take 31) = none
    ∧ scan ([false] ++ u32ToBitsLsb 0x2ba01477 32
        ++ (u32ToBitsLsb 0x000000ff 32).take 31)
      ≠ some [some 0, some 0x2ba01477] := by
  decide

theorem u32ToBitsLsb_length (n d : Nat) : (u32ToBitsLsb d n).length = n := by
  induction n generalizing d with
  | zero => rfl
  | succ n ih => simp [u32ToBitsLsb, ih]

theorem and_one_ne_zero (a : Nat) : ((a &&& 1) != 0) = a.testBit 0 := by
  rw [Nat.and_one_is_mod, Nat.testBit_zero]
  rcases Nat.mod_two_eq_zero_or_one a with h | h <;> simp [h]

theorem and_two_ne_zero (a : Nat) : ((a &&& 2) != 0) = a.testBit 1 := by
  have h := Nat.and_two_pow a 1
  norm_num at h
  rw [h]
  cases hb : a.testBit 1 <;> simp

theorem u32ToBitsLsb_getD (n d i : Nat) (h : i < n) :
    (u32ToBitsLsb d n).getD i false = d.testBit i := by
  induction n generalizing d i with
  | zero => omega
  | succ n ih =>
    cases i with
    | zero =>
      have h0 : (u32ToBitsLsb d (n + 1)).getD 0 false = ((d &&& 1) != 0) := rfl
      rw [h0, and_one_ne_zero]
    | succ i =>
      have hs : (u32ToBitsLsb d (n + 1)).getD (i + 1) false
          = (u32ToBitsLsb (d >>> 1) n).getD i false := by
        simp [u32ToBitsLsb, List.getD]
      rw [hs, ih _ _ (by omega), Nat.shiftRight_one, Nat.testBit_succ]

theorem two_mul_or_bit (x : Nat) (b : Bool) :
    2 * x ||| (if b then 1 else 0) = 2 * x + (if b then 1 else 0) := by
  cases b
  · simp
  · simp only [if_pos]
    apply Nat.eq_of_testBit_eq
    intro i
    cases i with
    | zero =>
      rw [Nat.testBit_or]
      simp [Nat.testBit_zero]
      omega
    | succ i =>
      rw [Nat.testBit_or, Nat.testBit_succ, Nat.testBit_succ, Nat.testBit_succ]
      have h2 : (2 * x) / 2 = x := by omega
      have h1 : (1 : Nat) / 2 = 0 := by norm_num
      have h3 : (2 * x + 1) / 2 = x := by omega
      simp [h1, h2, h3]

theorem bitsToNatMsb_append (l : List Bool) (b : Bool) :
    bitsToNatMsb (l ++ [b]) = 2 * bitsToNatMsb l + (if b then 1 else 0) := by
  unfold bitsToNatMsb
  rw [List.foldl_append]
  simp only [List.foldl_cons, List.foldl_nil]
  rw [Nat.shiftLeft_eq, pow_one, Nat.mul_comm]
  exact two_mul_or_bit _ b

theorem bitsToNatMsb_reverse_testBit (m : List Bool) (i : Nat) :
    (bitsToNatMsb m.reverse).testBit i = m.getD i false := by
  induction m generalizing i with
  | nil => simp [bitsToNatMsb]
  | cons b m ih =>
    rw [List.reverse_cons, bitsToNatMsb_append]
    cases i with
    | zero =>
      cases b <;> simp [Nat.testBit_zero, List.getD] <;> omega
    | succ i =>
      rw [Nat.testBit_succ]
      have hd : (2 * bitsToNatMsb m.reverse + (if b then 1 else 0)) / 2
          = bitsToNatMsb m.reverse := by cases b <;> simp <;> omega
      rw [hd]
      simpa [List.getD] using ih i

/-- C2: evaluation at the failing input.  A 35-bit TDO capture whose bits
0, 1, 2 are 1, 0, 0 — the LSB-first wire encoding of `WAIT = 0b001`, the
first-shifted bit being ACK[0] — is folded MSB-first by `TAP::acc`, so the
ack byte comes out as `0b100`, which `DapAck::from` decodes as
`InvalidAck`, not `Wait`.  (`0b010` = OK/FAULT survives because it is a
palindrome, and `DapAck::from` itself does map `0b001` to `Wait`.) -/
theorem acc_wait_ack_misdecoded :
    (acc 0 0 true ([true, false, false] ++ List.replicate 32 false)).2.1 = 0b100
    ∧ DapAck.from_u8 0b100 = DapAck.InvalidAck
    ∧ DapAck.from_u8 0b100 ≠ DapAck.Wait
    ∧ DapAck.from_u8 0b001 = DapAck.Wait
    ∧ (acc 0 0 true ([false, true, false] ++ List.replicate 32 false)).2.1 = 0b010 := by
  decide

/-- C4: the 35-bit DPACC/APACC request stream has bit 0 = RnW, bits 1..2
the two address bits of `a` (LSB first), and bits 3..34 the 32 data bits
in little-endian order; and the returned u32 reassembles the response
stream so that wire bit 3+i becomes bit i of the result. -/
theorem acc_bit_layout (data a : Nat) (RnW : Bool) (tdo : List Bool)
    (h : tdo.length = 35) :
    (acc data a RnW tdo).1.getD 0 false = RnW
    ∧ (acc data a RnW tdo).1.getD 1 false = a.testBit 0
    ∧ (acc data a RnW tdo).1.getD 2 false = a.testBit 1
    ∧ (∀ i : Fin 32, (acc data a RnW tdo).1.getD (3 + i) false = data.testBit i)
    ∧ (∀ i : Fin 32, ((acc data a RnW tdo).2.2).testBit i = tdo.getD (3 + i) false) := by
  refine ⟨rfl, ?_, ?_, ?_, ?_⟩
  · have h1 : (acc data a RnW tdo).1.getD 1 false = ((a &&& 1) != 0) := rfl
    rw [h1, and_one_ne_zero]
  · have h2 : (acc data a RnW tdo).1.getD 2 false = ((a &&& 2) != 0) := rfl
    rw [h2, and_two_ne_zero]
  · intro i
    have e : 3 + (i : Nat) = (i : Nat) + 3 := by omega
    have h3 : (acc data a RnW tdo).1.getD ((i : Nat) + 3) false
        = (u32ToBitsLsb data 32).getD i false := rfl
    rw [e, h3, u32ToBitsLsb_getD _ _ _ i.isLt]
  · intro i
    have h4 : (acc data a RnW tdo).2.2 = bitsToNatMsb (tdo.drop 3).reverse := by
      simp only [acc, List.take_reverse, h]
    rw [h4, bitsToNatMsb_reverse_testBit]
    rw [List.getD, List.getD]
    congr 1
    rw [List.get?_drop]

/-- Witness for `acc_bit_layout` at a concrete 35-bit response. -/
theorem acc_bit_layout_witness :
    (List.replicate 35 false : List Bool).length = 35
    ∧ (∀ i : Fin 32, ((acc 5 2 true (List.replicate 35 false)).2.2).testBit i
        = (List.replicate 35 false : List Bool).getD (3 + i) false) :=
  ⟨by simp, (acc_bit_layout 5 2 true (List.replicate 35 false) (by simp)).2.2.2.2⟩

/-- C6: `register_u32(offset, data, read)` first writes the 64-bit MEM-AP
TAR with `base + (offset & ~0xF)` (high word then low word, as
`memap_tar_u64_write` shows), then performs exactly one banked-data
access, at index `(offset & 0xF) / 4` (= `(offset % 0x10) / 4`); the index
is always below 4, so the panic arm is unreachable and the call succeeds
for every offset and base. -/
theorem register_u32_bd_window (baseaddr offset data : Nat) (read : Bool) :
    (offset &&& 0xF) = offset % 0x10
    ∧ (offset % 0x10) / 4 < 4
    ∧ (∀ address : Nat, (memap_tar_u64_write address).take 2
        = [⟨.TARhi, (address >>> 32) &&& 0xffffffff, false⟩,
           ⟨.TARlo, address &&& 0xffffffff, false⟩])
    ∧ ∃ bd : MemapAddress,
        register_u32 baseaddr offset data read
          = some (memap_tar_u64_write
              ((baseaddr + (offset &&& 0xFFFFFFFFFFFFFFF0)) % 2 ^ 64)
              ++ [⟨bd, data, read⟩])
        ∧ bd.to_u8 = 0x10 + 4 * ((offset % 0x10) / 4)
        ∧ (memap_tar_u64_write
              ((baseaddr + (offset &&& 0xFFFFFFFFFFFFFFF0)) % 2 ^ 64)
              ++ ([⟨bd, data, read⟩] : List MemapOp)).filter MemapOp.isBD
          = [⟨bd, data, read⟩] := by
  refine ⟨?_, by omega, ?_, ?_⟩
  · have h := Nat.and_pow_two_sub_one_eq_mod offset 4
    norm_num at h
    exact h
  · intro address
    rfl
  · have h4 : (offset % 0x10) / 4 = 0 ∨ (offset % 0x10) / 4 = 1
        ∨ (offset % 0x10) / 4 = 2 ∨ (offset % 0x10) / 4 = 3 := by omega
    rcases h4 with h | h | h | h
    · exact ⟨.BD0, by simp [register_u32, h], by rw [h]; rfl, rfl⟩
    · exact ⟨.BD1, by simp [register_u32, h], by rw [h]; rfl, rfl⟩
    · exact ⟨.BD2, by simp [register_u32, h], by rw [h]; rfl, rfl⟩
    · exact ⟨.BD3, by simp [register_u32, h], by rw [h]; rfl, rfl⟩

/-- C7 counterexample: `register_u64` begins with `todo!()`, so even at an
offset whose `bd_index` is 0 (here 0x80, i.e. DBGDTRRX_EL0) the call
panics instead of writing TAR and performing two banked-data accesses. -/
theorem register_u64_todo_panics :
    register_u64 0x80010000 0x80 0 true = none := rfl

/-- C7 (amended): `register_u64` currently always panics at its leading
`todo!()`; the dead code after the marker, for every offset whose
`bd_index = (offset % 0x10) / 4` is at most 2, writes TAR with
`base + (offset & ~0xF)` and performs two consecutive banked-data accesses
at `bd_index` and `bd_index + 1`, returning the two 32-bit responses
combined as `(high << 32) | low`. -/
theorem register_u64_after_todo_spec (baseaddr offset data : Nat)
    (read : Bool) (result_low result_high : Nat)
    (h : (offset % 0x10) / 4 ≤ 2) :
    ∃ bdLow bdHigh : MemapAddress,
      register_u64_after_todo baseaddr offset data read result_low result_high
        = some (memap_tar_u64_write
            ((baseaddr + (offset &&& 0xFFFFFFFFFFFFFFF0)) % 2 ^ 64)
            ++ [⟨bdLow, data &&& 0xffffffff, read⟩,
                ⟨bdHigh, (data >>> 32) &&& 0xffffffff, read⟩],
            (result_high <<< 32) ||| result_low)
      ∧ bdLow.to_u8 = 0x10 + 4 * ((offset % 0x10) / 4)
      ∧ bdHigh.to_u8 = 0x10 + 4 * ((offset % 0x10) / 4 + 1) := by
  have h3 : (offset % 0x10) / 4 = 0 ∨ (offset % 0x10) / 4 = 1
      ∨ (offset % 0x10) / 4 = 2 := by omega
  rcases h3 with h0 | h0 | h0
  · exact ⟨.BD0, .BD1, by simp [register_u64_after_todo, h0], by rw [h0]; rfl, by rw [h0]; rfl⟩
  · exact ⟨.BD1, .BD2, by simp [register_u64_after_todo, h0], by rw [h0]; rfl, by rw [h0]; rfl⟩
  · exact ⟨.BD2, .BD3, by simp [register_u64_after_todo, h0], by rw [h0]; rfl, by rw [h0]; rfl⟩

/-- Witness for `register_u64_after_todo_spec` at offset 0x84 (EDITR,
bd_index 1). -/
theorem register_u64_after_todo_spec_witness :
    (0x84 % 0x10) / 4 ≤ 2
    ∧ ∃ bdLow bdHigh : MemapAddress,
        register_u64_after_todo 0x80010000 0x84 0xdeadbeef12345678 false 7 9
          = some (memap_tar_u64_write
              ((0x80010000 + (0x84 &&& 0xFFFFFFFFFFFFFFF0)) % 2 ^ 64)
              ++ [⟨bdLow, 0xdeadbeef12345678 &&& 0xffffffff, false⟩,
                  ⟨bdHigh, (0xdeadbeef12345678 >>> 32) &&& 0xffffffff, false⟩],
              (9 <<< 32) ||| 7)
        ∧ bdLow.to_u8 = 0x10 + 4 * ((0x84 % 0x10) / 4)
        ∧ bdHigh.to_u8 = 0x10 + 4 * ((0x84 % 0x10) / 4 + 1) :=
  ⟨by norm_num,
    register_u64_after_todo_spec 0x80010000 0x84 0xdeadbeef12345678 false 7 9
      (by norm_num)⟩

end Libjtag
